import Mathlib

/-!
Verification of the Splitwise Telegram bot's session engine.

A shallow embedding of the conversational session engine of the bot
(`app.js` / `config.js`): the per-conversation session store, the timeout
manager, the UI-artifact tracker, the ownership guard, the wizard state
machine and the event dispatcher, translated from the JavaScript source.

Modelling conventions:
* `userSessions` (a plain JS object keyed by chat id) is modelled as an
  association list `Store`; property access / assignment / `delete` become
  `Store.get` / `Store.put` / `Store.remove`.
* Dynamically-shaped session objects become a record whose fields are all
  `Option`s (a missing JS property is `none`).
* Outbound chat-transport calls (send / edit / delete / answer) are recorded
  as an ordered `Effect` list; message sends allocate ids from an explicit
  `fresh` counter, and `setTimeout` handles are explicit `timerId`
  parameters.  Transport calls are modelled as succeeding; the source
  swallows per-call failures where relevant and the recorded effect is the
  *attempt*.
* Remote Splitwise calls are modelled by an `Env` record carrying their
  outcomes (`none` models the call throwing).
* JS numbers for monetary amounts become `ℚ`; `Number.prototype.toFixed(2)`
  on the nonnegative amounts used here is round-half-up, `toFixed2` below.
* JS string scrutiny (`split("_")`, `startsWith`, `trim`,
  regex matching and `parseInt`) is re-implemented on `List Char`
  (`jsSplit`, `lStartsWith`, `jsTrim`, `matchAmount`, `jsParseIntDigits`).
-/

namespace SWBot

/-- A Splitwise group member as used by the bot (`group.members` entries). -/
structure Member where
  id : Int
  firstName : String
  lastName : String
deriving Repr, DecidableEq

/-- A Splitwise group (`data.groups` entries). -/
structure Group where
  id : Int
  name : String
deriving Repr, DecidableEq

/--
The per-conversation session record stored in `userSessions[chatId]`.
Every field is optional because the source builds these objects
dynamically; a JS property that is `undefined`/absent is `none` here.
`timeout` holds the handle of the armed `setTimeout`, `messageIds` is the
UI-artifact tracker list.
-/
structure Session where
  userId : Option Int := none
  step : Option String := none
  groupId : Option String := none
  description : Option String := none
  amount : Option ℚ := none
  currencyCode : Option String := none
  groups : Option (List Group) := none
  members : Option (List Member) := none
  selectedMembers : Option (List Int) := none
  messageIds : Option (List Nat) := none
  timeout : Option Nat := none
  loginMessageId : Option Nat := none
deriving Repr, DecidableEq

abbrev ChatId := Int

/-- The session store `userSessions`: an association list keyed by chat id. -/
abbrev Store := List (ChatId × Session)

/-- Property read `userSessions[chatId]`. -/
def Store.get : Store → ChatId → Option Session
  | [], _ => none
  | p :: t, c => if p.1 = c then some p.2 else Store.get t c

/-- Property write `userSessions[chatId] = v`: replace the entry if the
key is present, else append (JS property insertion order). -/
def Store.put : Store → ChatId → Session → Store
  | [], c, v => [(c, v)]
  | p :: t, c, v => if p.1 = c then (c, v) :: t else p :: Store.put t c v

/-- Property removal `delete userSessions[chatId]`. -/
def Store.remove : Store → ChatId → Store
  | [], _ => []
  | p :: t, c => if p.1 = c then Store.remove t c else p :: Store.remove t c

/-- The keys of the store are pairwise distinct (a JS object cannot hold two
properties with the same key; for the association-list model this is an
invariant). -/
def keysNodup (s : Store) : Prop := (s.map Prod.fst).Nodup

/-- Message texts sent by the bot, by call site (formatting is a non-goal,
so texts are identified by tag). -/
inductive MsgText where
  | alreadyLinked | loginLink
  | noAccountLinked | unlinked | unlinkFailed
  | notLoggedIn
  | noGroups | fetchGroupsFailed | groupList
  | selectDefaultGroup
  | noDefaultGroup | expenseDescriptionPrompt
  | balanceInfo | fetchGroupFailed
  | groupDetail
  | errorOccurred | defaultGroupSet | setDefaultFailed
  | expenseCreated | expenseCreateFailed
  | selectMembers | fetchMembersFailed
  | selMembersInvalid | noMembersSelected
  | invalidDescription | amountPrompt
  | invalidAmountFormat | invalidAmountPositive | splitEquallyPrompt
  | sessionExpired
deriving Repr, DecidableEq

/-- Observable side effects of one handler run, in execution order.
`send` carries the id the transport assigned to the new message;
`deleteMessage` / `editMarkup` record the *attempt* (the source tolerates
their failure); `answerCallback` is `bot.answerCallbackQuery`, with the
`show_alert` flag; `clearTimer` is `clearTimeout`;
`persistDefaultGroup` is the single `token.save()` write of a default
group id. -/
inductive Effect where
  | send (text : MsgText) (mid : Nat)
  | editMarkup (mid : Nat)
  | deleteMessage (mid : Nat)
  | answerCallback (alert : Bool)
  | clearTimer (t : Nat)
  | persistDefaultGroup (gid : String)
deriving Repr, DecidableEq

/-- Outcome of the `create_expense` remote call, after the source's
branching on the response body. -/
inductive CreateOutcome where
  | domainError  -- response carries a non-empty `errors.base` list
  | success      -- response carries a non-empty `expenses` list
  | unknown      -- neither: "Unknown error occurred"
  | throws       -- the fetch itself throws
deriving Repr, DecidableEq

/-- Outcomes of the external collaborators for one event: the persisted
token/default-group lookup and the Splitwise fetches.  `none` for a fetch
models the call throwing (caught by the source's `try`/`catch`). -/
structure Env where
  token : Option String := none
  defaultGroupId : Option String := none
  fetchGroups : Option (List Group) := none
  fetchGroup : Option (String × List Member) := none
  createExpense : CreateOutcome := CreateOutcome.throws
deriving Repr, DecidableEq

/-- An inbound text message / command, tagged with conversation and actor. -/
structure TgMessage where
  chatId : ChatId
  fromId : Int
  messageId : Nat
  text : String
deriving Repr, DecidableEq

/-- An inbound button press (`callback_query`): the chat, the actor, the id
of the message carrying the pressed control, and the callback payload. -/
structure CallbackQuery where
  chatId : ChatId
  fromId : Int
  messageId : Nat
  data : String
deriving Repr, DecidableEq

end SWBot

namespace SWBot

/-! ## JS string operations, re-implemented on `List Char` -/

/-- The JS `\s` whitespace characters relevant here. -/
def jsWs (c : Char) : Bool :=
  c = ' ' || c = '\t' || c = '\n' || c = '\r' || c = '\x0b' || c = '\x0c'

/-- The JS `String.prototype.trim`. -/
def jsTrim (cs : List Char) : List Char :=
  ((cs.dropWhile jsWs).reverse.dropWhile jsWs).reverse

/-- The JS `String.prototype.startsWith`. -/
def lStartsWith (pre cs : List Char) : Bool := pre.isPrefixOf cs

/-- Helper for `jsSplit`: accumulate the current piece (reversed). -/
def jsSplitAux (sep : Char) : List Char → List Char → List (List Char)
  | [], acc => [acc.reverse]
  | c :: rest, acc =>
      if c = sep then acc.reverse :: jsSplitAux sep rest []
      else jsSplitAux sep rest (c :: acc)

/-- The JS `String.prototype.split(sep)` for a one-character separator
(the source only uses an underscore separator). -/
def jsSplit (sep : Char) (cs : List Char) : List (List Char) := jsSplitAux sep cs []

/-- The JS `parseInt(s, 10)` restricted to the digit-only payload suffixes the
source feeds it (the callback data indices): the maximal leading digit run,
`none` when there is none (JS `NaN`).  Sign/whitespace handling of full
`parseInt` is irrelevant for these inputs and elided. -/
def jsParseIntDigits (cs : List Char) : Option Nat :=
  let ds := cs.takeWhile Char.isDigit
  if ds.isEmpty then none
  else some (ds.foldl (fun n c => n * 10 + (c.toNat - 48)) 0)

/-- The JS `parseFloat` on a string already known to match the amount
regex's numeric capture (exact decimal reading). -/
def parseDecimal (cs : List Char) : ℚ :=
  let ip := cs.takeWhile Char.isDigit
  let ipv : ℕ := ip.foldl (fun n c => n * 10 + (c.toNat - 48)) 0
  match cs.dropWhile Char.isDigit with
  | '.' :: fr =>
      let frd := fr.takeWhile Char.isDigit
      let fv : ℕ := frd.foldl (fun n c => n * 10 + (c.toNat - 48)) 0
      (ipv : ℚ) + (fv : ℚ) / (10 ^ frd.length : ℚ)
  | _ => (ipv : ℚ)

/-- Uppercase Latin letter test (the regex class `[A-Z]`). -/
def isUpperAZ (c : Char) : Bool := 'A' ≤ c && c ≤ 'Z'

/-- The amount regex `/^(\d+(\.\d{1,2})?)\s*([A-Z]{3})?$/` of the
`awaiting_amount` step: on a match, returns the numeric capture and the
optional three-letter currency capture.  (Greedy matching coincides with
the regex here because digits, `.`-fraction, whitespace and `[A-Z]` are
pairwise disjoint character classes.) -/
def matchAmount (cs : List Char) : Option (List Char × Option (List Char)) :=
  let ds := cs.takeWhile Char.isDigit
  let r0 := cs.dropWhile Char.isDigit
  if ds.isEmpty then none
  else
    let numRest : Option (List Char × List Char) :=
      match r0 with
      | '.' :: r =>
          let fr := r.takeWhile Char.isDigit
          if fr.length = 1 ∨ fr.length = 2 then
            some (ds ++ '.' :: fr, r.dropWhile Char.isDigit)
          else none
      | _ => some (ds, r0)
    match numRest with
    | none => none
    | some (num, r1) =>
        let r2 := r1.dropWhile jsWs
        if r2.isEmpty then some (num, none)
        else if r2.length = 3 ∧ r2.all isUpperAZ then some (num, some r2)
        else none

/-! ## Session lifecycle: cleanup and the button timeout -/

/--
`cleanUpSession(chatId)`: if a session exists, clear its pending timeout,
attempt deletion of every tracked message id in recorded order
(`session.messageIds || []`; per-item failures are swallowed), and delete
the record.  No-op when no session exists.
-/
def cleanUpSession (store : Store) (chatId : ChatId) : Store × List Effect :=
  match Store.get store chatId with
  | none => (store, [])
  | some session =>
      let clearFx := match session.timeout with
        | some t => [Effect.clearTimer t]
        | none => []
      let delFx := (session.messageIds.getD []).map Effect.deleteMessage
      (Store.remove store chatId, clearFx ++ delFx)

/--
`setButtonTimeout(chatId, sentMessage)`, arm-time behaviour: clear any
existing timeout, arm `timerId`, and push `sentMessage.message_id` onto the
session's `messageIds` (creating the list if absent).  When no session
exists the source creates an empty record and arms the timer on it, then
throws accessing `session.messageIds` on the stale `undefined` local; the
`none` branch returns the store as it stands at that throw.
(The timer's expiry callback is modelled separately by `onExpire`.)
-/
def setButtonTimeout (store : Store) (chatId : ChatId) (mid : Nat) (timerId : Nat) :
    Store × List Effect :=
  match Store.get store chatId with
  | some s =>
      let clearFx := match s.timeout with
        | some t => [Effect.clearTimer t]
        | none => []
      let s' := { s with timeout := some timerId,
                         messageIds := some (s.messageIds.getD [] ++ [mid]) }
      (Store.put store chatId s', clearFx)
  | none =>
      (Store.put store chatId { timeout := some timerId }, [])

/--
The expiry callback armed by `setButtonTimeout` (its `setTimeout` body):
strip the inline keyboard from the armed message and delete it (attempts;
failures tolerated), send the "session has expired" notice, push the
notice's id onto the *captured* session object (invisible afterwards), and
`delete userSessions[chatId]` — removing whatever record the store
currently holds for the conversation, with no check that the armed session
still exists.  The tracked artifacts are not deleted.
-/
def onExpire (store : Store) (chatId : ChatId) (armedMid : Nat) (fresh : Nat) :
    Store × List Effect :=
  (Store.remove store chatId,
   [Effect.editMarkup armedMid, Effect.deleteMessage armedMid,
    Effect.send MsgText.sessionExpired fresh])

end SWBot

namespace SWBot

/-! ## Command handlers (`bot.onText`) -/

/--
`/login`: clean up any existing session; if an account is already linked,
report it; otherwise send the login link and store a session holding only
`loginMessageId`.
-/
def handleLogin (env : Env) (store : Store) (m : TgMessage) (fresh : Nat) :
    Store × List Effect :=
  let c1 := cleanUpSession store m.chatId
  match env.token with
  | some _ => (c1.1, c1.2 ++ [Effect.send MsgText.alreadyLinked fresh])
  | none =>
      (Store.put c1.1 m.chatId { loginMessageId := some fresh },
       c1.2 ++ [Effect.send MsgText.loginLink fresh])

/--
`/unlink`: clean up any existing session; report when nothing is linked,
otherwise destroy the stored token and confirm.  (The token-store write is
external; only its chat messages are observable here, and the destroy is
modelled as succeeding.)
-/
def handleUnlink (env : Env) (store : Store) (m : TgMessage) (fresh : Nat) :
    Store × List Effect :=
  let c1 := cleanUpSession store m.chatId
  match env.token with
  | none => (c1.1, c1.2 ++ [Effect.send MsgText.noAccountLinked fresh])
  | some _ => (c1.1, c1.2 ++ [Effect.send MsgText.unlinked fresh])

/--
`/group`: clean up; require a token; fetch the group list (`none` = the
fetch throws → caught, failure message).  On success store
`{ userId, messageIds: [] }`, send the group-list keyboard, push its id,
and arm the button timeout (which pushes the id a second time — the source
pushes in the command handler *and* inside `setButtonTimeout`).
-/
def handleGroup (env : Env) (store : Store) (m : TgMessage) (fresh timerId : Nat) :
    Store × List Effect :=
  let c1 := cleanUpSession store m.chatId
  match env.token with
  | none => (c1.1, c1.2 ++ [Effect.send MsgText.notLoggedIn fresh])
  | some _ =>
    match env.fetchGroups with
    | none => (c1.1, c1.2 ++ [Effect.send MsgText.fetchGroupsFailed fresh])
    | some groups =>
        if groups.isEmpty then (c1.1, c1.2 ++ [Effect.send MsgText.noGroups fresh])
        else
          let s2 := Store.put c1.1 m.chatId
            { userId := some m.fromId, messageIds := some [fresh] }
          let r := setButtonTimeout s2 m.chatId fresh timerId
          (r.1, c1.2 ++ [Effect.send MsgText.groupList fresh] ++ r.2)

/--
`/setgroup`: clean up; require a token; fetch the group list.  On success
store `{ userId, groups, messageIds: [sent id] }` and send the
group-selection keyboard.  No timeout is armed on this path.
-/
def handleSetgroup (env : Env) (store : Store) (m : TgMessage) (fresh : Nat) :
    Store × List Effect :=
  let c1 := cleanUpSession store m.chatId
  match env.token with
  | none => (c1.1, c1.2 ++ [Effect.send MsgText.notLoggedIn fresh])
  | some _ =>
    match env.fetchGroups with
    | none => (c1.1, c1.2 ++ [Effect.send MsgText.fetchGroupsFailed fresh])
    | some groups =>
        if groups.isEmpty then (c1.1, c1.2 ++ [Effect.send MsgText.noGroups fresh])
        else
          (Store.put c1.1 m.chatId
             { userId := some m.fromId, groups := some groups,
               messageIds := some [fresh] },
           c1.2 ++ [Effect.send MsgText.selectDefaultGroup fresh])

/--
`/expense`: clean up; require a token and a default group; then store
`{ step: "awaiting_description", groupId, userId, messageIds: [sent id] }`
and prompt for the description.
-/
def handleExpense (env : Env) (store : Store) (m : TgMessage) (fresh : Nat) :
    Store × List Effect :=
  let c1 := cleanUpSession store m.chatId
  match env.token with
  | none => (c1.1, c1.2 ++ [Effect.send MsgText.notLoggedIn fresh])
  | some _ =>
    match env.defaultGroupId with
    | none => (c1.1, c1.2 ++ [Effect.send MsgText.noDefaultGroup fresh])
    | some gid =>
        (Store.put c1.1 m.chatId
           { step := some "awaiting_description", groupId := some gid,
             userId := some m.fromId, messageIds := some [fresh] },
         c1.2 ++ [Effect.send MsgText.expenseDescriptionPrompt fresh])

/--
`/balance`: clean up; require a token and a default group; fetch the group
and print balances.  The session store is only touched by the cleanup.
-/
def handleBalance (env : Env) (store : Store) (m : TgMessage) (fresh : Nat) :
    Store × List Effect :=
  let c1 := cleanUpSession store m.chatId
  match env.token with
  | none => (c1.1, c1.2 ++ [Effect.send MsgText.notLoggedIn fresh])
  | some _ =>
    match env.defaultGroupId with
    | none => (c1.1, c1.2 ++ [Effect.send MsgText.noDefaultGroup fresh])
    | some _ =>
        match env.fetchGroup with
        | none => (c1.1, c1.2 ++ [Effect.send MsgText.fetchGroupFailed fresh])
        | some _ => (c1.1, c1.2 ++ [Effect.send MsgText.balanceInfo fresh])

/-! ## Free-text message handler (`bot.on("message")`) -/

/--
The free-text handler: only acts when a session exists and its `userId`
equals the sender; then records the user's message id and, depending on
`step`, runs the description or amount step of the wizard (invalid input
re-prompts without a transition; valid input stores the field, advances
`step` and sends the next prompt, recording its id).
-/
def handleMessage (store : Store) (m : TgMessage) (fresh : Nat) :
    Store × List Effect :=
  match Store.get store m.chatId with
  | none => (store, [])
  | some s0 =>
    if s0.userId = some m.fromId then
      let s := { s0 with messageIds := some (s0.messageIds.getD [] ++ [m.messageId]) }
      let store1 := Store.put store m.chatId s
      if s.step = some "awaiting_description" then
        let description := jsTrim m.text.data
        if description.isEmpty then
          (store1, [Effect.send MsgText.invalidDescription fresh])
        else
          let s' := { s with description := some (String.mk description),
                             step := some "awaiting_amount",
                             messageIds := some (s.messageIds.getD [] ++ [fresh]) }
          (Store.put store1 m.chatId s', [Effect.send MsgText.amountPrompt fresh])
      else if s.step = some "awaiting_amount" then
        match matchAmount (jsTrim m.text.data) with
        | none => (store1, [Effect.send MsgText.invalidAmountFormat fresh])
        | some (num, cur) =>
            let amount := parseDecimal num
            let currencyCode := (cur.map String.mk).getD "SGD"
            if amount ≤ 0 then
              (store1, [Effect.send MsgText.invalidAmountPositive fresh])
            else
              let s' := { s with amount := some amount,
                                 currencyCode := some currencyCode,
                                 step := some "splitEqually",
                                 messageIds := some (s.messageIds.getD [] ++ [fresh]) }
              (Store.put store1 m.chatId s',
               [Effect.send MsgText.splitEquallyPrompt fresh])
      else (store1, [])
    else (store, [])

end SWBot

namespace SWBot

/-! ## Expense payload construction -/

/-- The JS `Number.prototype.toFixed(2)` on the nonnegative amounts used by
the bot: round half up to two decimal places. -/
def toFixed2 (q : ℚ) : ℚ := (⌊q * 100 + 1/2⌋ : ℤ) / 100

/--
The `usersPayload` built on custom-split submission: for each selected
member id (with its `forEach` index), look the member up in the roster; if
found, emit `(index, memberId, paid_share, owed_share)` where both shares
are `(amount / selectedMembers.length).toFixed(2)`; a selected id missing
from the roster is logged and skipped.
-/
def usersPayload (members : List Member) (selectedMembers : List Int) (amount : ℚ) :
    List (Nat × Int × ℚ × ℚ) :=
  selectedMembers.enum.filterMap (fun p =>
    (members.find? (fun mem => mem.id == p.2)).map (fun _ =>
      (p.1, p.2, toFixed2 (amount / (selectedMembers.length : ℚ)),
                 toFixed2 (amount / (selectedMembers.length : ℚ)))))

/--
The member-toggle update on the `selectedMembers` list: `indexOf` /
`splice` removes the id when present, `push` appends it when absent.
-/
def toggleSel (sel : List Int) (a : Int) : List Int :=
  if a ∈ sel then sel.erase a else sel ++ [a]

/-! ## Button-press handler (`bot.on("callback_query")`) -/

/--
The branch dispatch of the `callback_query` handler, run after the
entry-point timeout clearing and the ownership guard.  Returns the new
store, the effects of the branch, and whether control falls through to the
final `bot.answerCallbackQuery(callbackQuery.id)` (branches that `return`
early, and the paths where the source throws on an absent field outside
any `try`, yield `false`).
-/
def dispatchCallback (env : Env) (store : Store) (q : CallbackQuery)
    (fresh timerId : Nat) : Store × List Effect × Bool :=
  let cs := q.data.data
  let chatId := q.chatId
  if lStartsWith "group_".data cs then
    -- group selected from the /group list: show detail + follow-on button
    match env.token with
    | none => (store, [Effect.send MsgText.notLoggedIn fresh], false)
    | some _ =>
      match env.fetchGroup with
      | none => (store, [Effect.send MsgText.fetchGroupFailed fresh], true)
      | some _ =>
        match Store.get store chatId with
        | none =>
            -- `session.messageIds` throws inside the try: caught, failure text
            (store, [Effect.editMarkup q.messageId,
                     Effect.send MsgText.fetchGroupFailed fresh], true)
        | some s =>
            let s1 :=
              { s with messageIds := some (s.messageIds.getD [] ++ [q.messageId, fresh]) }
            let r := setButtonTimeout (Store.put store chatId s1) chatId fresh timerId
            (r.1,
             [Effect.editMarkup q.messageId, Effect.send MsgText.groupDetail fresh] ++ r.2,
             true)
  else if lStartsWith "createExpense_".data cs then
    -- "Create expense in group": overwrite the session with a fresh wizard
    let groupId := String.mk ((jsSplit '_' cs).getD 1 [])
    (Store.put store chatId
       { step := some "awaiting_description", groupId := some groupId,
         userId := some q.fromId, messageIds := some [fresh] },
     [Effect.send MsgText.expenseDescriptionPrompt fresh], true)
  else if lStartsWith "setgroup_".data cs then
    let groupId := String.mk ((jsSplit '_' cs).getD 1 [])
    match Store.get store chatId with
    | none => (store, [], false)   -- `session.groups` throws outside any try
    | some s =>
      match s.groups with
      | none => (store, [], false) -- likewise
      | some gs =>
        match gs.find? (fun g => toString g.id == groupId) with
        | none => (store, [Effect.send MsgText.errorOccurred fresh], false)
        | some _ =>
          match env.token with
          | none => (store, [Effect.send MsgText.notLoggedIn fresh], true)
          | some _ =>
              (Store.remove store chatId,
               [Effect.persistDefaultGroup groupId,
                Effect.send MsgText.defaultGroupSet fresh] ++
                 (s.messageIds.getD []).map Effect.deleteMessage,
               true)
  else if cs = "splitEquallyYes".data then
    match Store.get store chatId with
    | none => (store, [], false)   -- destructuring `undefined` throws
    | some s =>
        let resultMsg :=
          if s.amount = none then MsgText.expenseCreateFailed -- `.toFixed` throws, caught
          else match env.createExpense with
            | CreateOutcome.success => MsgText.expenseCreated
            | _ => MsgText.expenseCreateFailed
        (Store.remove store chatId,
         [Effect.send resultMsg fresh] ++
           (s.messageIds.getD []).map Effect.deleteMessage,
         true)
  else if cs = "splitEquallyNo".data then
    match Store.get store chatId with
    | none => (store, [], false)   -- destructuring `undefined` throws
    | some s =>
      match env.fetchGroup with
      | none => (store, [Effect.send MsgText.fetchMembersFailed fresh], true)
      | some gm =>
          (Store.put store chatId
             { s with members := some gm.2, selectedMembers := some [],
                      messageIds := some (s.messageIds.getD [] ++ [fresh]) },
           [Effect.send MsgText.selectMembers fresh], true)
  else if lStartsWith "toggle_member_".data cs then
    match Store.get store chatId with
    | none => (store, [Effect.send MsgText.errorOccurred fresh], false)
    | some s =>
      let memberIdx := jsParseIntDigits ((jsSplit '_' cs).getD 2 [])
      match s.members with
      | none => (store, [], false)  -- `members[memberIdx]` throws on `undefined`
      | some ms =>
        match memberIdx.bind ms.get? with
        | none => (store, [], false)  -- `if (!members[memberIdx]) return;`
        | some mem =>
          match s.selectedMembers with
          | none => (store, [], false)  -- `.indexOf` throws on `undefined`
          | some sel =>
              (Store.put store chatId { s with selectedMembers := some (toggleSel sel mem.id) },
               [Effect.editMarkup q.messageId], true)
  else if cs = "submit_selected_members".data then
    match Store.get store chatId with
    | none => (store, [Effect.send MsgText.errorOccurred fresh], false)
    | some s =>
      match s.selectedMembers with
      | none => (store, [Effect.send MsgText.selMembersInvalid fresh], false)
      | some sel =>
        if sel.isEmpty then (store, [Effect.send MsgText.noMembersSelected fresh], false)
        else
          let resultMsg :=
            -- `members.find` / `amount.toFixed` throw inside the try when absent
            if s.members = none ∨ s.amount = none then MsgText.expenseCreateFailed
            else match env.createExpense with
              | CreateOutcome.success => MsgText.expenseCreated
              | _ => MsgText.expenseCreateFailed
          (Store.remove store chatId,
           [Effect.send resultMsg fresh] ++
             (s.messageIds.getD []).map Effect.deleteMessage,
           true)
  else (store, [], true)

/--
`bot.on("callback_query")`: clear any pending timeout for the chat's
session *before anything else*; then reject presses by an actor other than
the session's `userId` with an alerted acknowledgment (`show_alert: true`)
and an early return; otherwise dispatch on the payload and, unless the
branch returned early (or threw), answer the press plainly at the end.
-/
def handleCallbackQuery (env : Env) (store : Store) (q : CallbackQuery)
    (fresh timerId : Nat) : Store × List Effect :=
  let session0 := Store.get store q.chatId
  let cleared :=
    match session0 with
    | some s =>
      match s.timeout with
      | some t => (Store.put store q.chatId { s with timeout := none },
                   [Effect.clearTimer t])
      | none => (store, ([] : List Effect))
    | none => (store, ([] : List Effect))
  let unauthorized : Bool :=
    match session0 with
    | some s => s.userId != some q.fromId
    | none => false
  if unauthorized then
    (cleared.1, cleared.2 ++ [Effect.answerCallback true])
  else
    let d := dispatchCallback env cleared.1 q fresh timerId
    (d.1, cleared.2 ++ d.2.1 ++ if d.2.2 then [Effect.answerCallback false] else [])

/-! ## The event dispatcher -/

/-- The commands the bot registers with `bot.onText`. -/
inductive Cmd where
  | login | unlink | group | setgroup | expense | balance
deriving Repr, DecidableEq

/-- One inbound event, carrying the message-id / timer-handle supply the
transport resolves for it.  `timerFire` is the asynchronous firing of an
armed button timeout (with the message id captured at arm time). -/
inductive Event where
  | command (c : Cmd) (m : TgMessage) (fresh timerId : Nat)
  | message (m : TgMessage) (fresh : Nat)
  | press (q : CallbackQuery) (fresh timerId : Nat)
  | timerFire (chatId : ChatId) (armedMid fresh : Nat)
deriving Repr, DecidableEq

/-- Route one event to its handler. -/
def stepEvent (env : Env) (store : Store) : Event → Store × List Effect
  | Event.command Cmd.login m fresh _ => handleLogin env store m fresh
  | Event.command Cmd.unlink m fresh _ => handleUnlink env store m fresh
  | Event.command Cmd.group m fresh tid => handleGroup env store m fresh tid
  | Event.command Cmd.setgroup m fresh _ => handleSetgroup env store m fresh
  | Event.command Cmd.expense m fresh _ => handleExpense env store m fresh
  | Event.command Cmd.balance m fresh _ => handleBalance env store m fresh
  | Event.message m fresh => handleMessage store m fresh
  | Event.press q fresh tid => handleCallbackQuery env store q fresh tid
  | Event.timerFire c mid fresh => onExpire store c mid fresh

/-- Run a sequence of inbound events (each with the collaborator outcomes
in force when it is processed), returning the final session store. -/
def runEvents (store : Store) (evs : List (Env × Event)) : Store :=
  evs.foldl (fun st p => (stepEvent p.1 st p.2).1) store

end SWBot

namespace SWBot

/-! ## Store lemmas -/

theorem Store.get_put_self (s : Store) (c : ChatId) (v : Session) :
    Store.get (Store.put s c v) c = some v := by
  induction s with
  | nil => simp [Store.put, Store.get]
  | cons p t ih =>
      by_cases h : p.1 = c
      · simp [Store.put, Store.get, h]
      · simp [Store.put, Store.get, h, ih]

theorem Store.get_put_ne (s : Store) (c d : ChatId) (v : Session) (h : c ≠ d) :
    Store.get (Store.put s c v) d = Store.get s d := by
  induction s with
  | nil => simp [Store.put, Store.get, h, Ne.symm h]
  | cons p t ih =>
      by_cases hp : p.1 = c
      · simp [Store.put, Store.get, hp, h, Ne.symm h]
      · by_cases hd : p.1 = d
        · simp [Store.put, Store.get, hp, hd, Ne.symm h]
        · simp [Store.put, Store.get, hp, hd, ih]

theorem Store.get_remove_self (s : Store) (c : ChatId) :
    Store.get (Store.remove s c) c = none := by
  induction s with
  | nil => simp [Store.remove, Store.get]
  | cons p t ih =>
      by_cases h : p.1 = c
      · simp [Store.remove, h, ih]
      · simp [Store.remove, Store.get, h, ih]

theorem Store.get_remove_ne (s : Store) (c d : ChatId) (h : c ≠ d) :
    Store.get (Store.remove s c) d = Store.get s d := by
  induction s with
  | nil => simp [Store.remove, Store.get]
  | cons p t ih =>
      by_cases hp : p.1 = c
      · have hd : p.1 ≠ d := by rw [hp]; exact h
        simp [Store.remove, Store.get, hp, hd, ih, h]
      · by_cases hd : p.1 = d
        · simp [Store.remove, Store.get, hp, hd, Ne.symm h]
        · simp [Store.remove, Store.get, hp, hd, ih]

theorem Store.mem_keys_put (s : Store) (c d : ChatId) (v : Session)
    (h : d ∈ (Store.put s c v).map Prod.fst) :
    d = c ∨ d ∈ s.map Prod.fst := by
  induction s with
  | nil =>
      simp only [Store.put, List.map_cons, List.map_nil, List.mem_singleton] at h
      exact Or.inl h
  | cons p t ih =>
      by_cases hp : p.1 = c
      · simp only [Store.put, if_pos hp, List.map_cons, List.mem_cons] at h
        rcases h with h | h
        · exact Or.inl h
        · exact Or.inr (by simp only [List.map_cons, List.mem_cons]; exact Or.inr h)
      · simp only [Store.put, if_neg hp, List.map_cons, List.mem_cons] at h
        rcases h with h | h
        · exact Or.inr (by simp only [List.map_cons, List.mem_cons]; exact Or.inl h)
        · rcases ih h with h' | h'
          · exact Or.inl h'
          · exact Or.inr (by simp only [List.map_cons, List.mem_cons]; exact Or.inr h')

theorem keysNodup_put (s : Store) (c : ChatId) (v : Session) (h : keysNodup s) :
    keysNodup (Store.put s c v) := by
  induction s with
  | nil => simp [Store.put, keysNodup]
  | cons p t ih =>
      rw [keysNodup, List.map_cons, List.nodup_cons] at h
      by_cases hp : p.1 = c
      · rw [keysNodup, Store.put, if_pos hp, List.map_cons, List.nodup_cons]
        exact ⟨by rw [← hp]; exact h.1, h.2⟩
      · rw [keysNodup, Store.put, if_neg hp, List.map_cons, List.nodup_cons]
        refine ⟨fun hmem => ?_, ih h.2⟩
        rcases Store.mem_keys_put t c p.1 v hmem with h' | h'
        · exact hp h'
        · exact h.1 h'

theorem Store.remove_sublist (s : Store) (c : ChatId) :
    (Store.remove s c).Sublist s := by
  induction s with
  | nil => simp [Store.remove]
  | cons p t ih =>
      by_cases hp : p.1 = c
      · rw [Store.remove, if_pos hp]
        exact ih.cons p
      · rw [Store.remove, if_neg hp]
        exact ih.cons₂ p

theorem keysNodup_remove (s : Store) (c : ChatId) (h : keysNodup s) :
    keysNodup (Store.remove s c) := by
  exact h.sublist ((Store.remove_sublist s c).map Prod.fst)

end SWBot

namespace SWBot

/-! ## Key-uniqueness preservation through every handler -/

theorem keysNodup_cleanUpSession (store : Store) (c : ChatId) (h : keysNodup store) :
    keysNodup (cleanUpSession store c).1 := by
  unfold cleanUpSession
  split
  · exact h
  · exact keysNodup_remove _ _ h

theorem keysNodup_setButtonTimeout (store : Store) (c : ChatId) (mid tid : Nat)
    (h : keysNodup store) : keysNodup (setButtonTimeout store c mid tid).1 := by
  unfold setButtonTimeout
  split
  · exact keysNodup_put _ _ _ h
  · exact keysNodup_put _ _ _ h

theorem keysNodup_handleLogin (env : Env) (store : Store) (m : TgMessage) (fresh : Nat)
    (h : keysNodup store) : keysNodup (handleLogin env store m fresh).1 := by
  unfold handleLogin
  split
  · exact keysNodup_cleanUpSession _ _ h
  · exact keysNodup_put _ _ _ (keysNodup_cleanUpSession _ _ h)

theorem keysNodup_handleUnlink (env : Env) (store : Store) (m : TgMessage) (fresh : Nat)
    (h : keysNodup store) : keysNodup (handleUnlink env store m fresh).1 := by
  unfold handleUnlink
  split
  · exact keysNodup_cleanUpSession _ _ h
  · exact keysNodup_cleanUpSession _ _ h

theorem keysNodup_handleGroup (env : Env) (store : Store) (m : TgMessage)
    (fresh tid : Nat) (h : keysNodup store) :
    keysNodup (handleGroup env store m fresh tid).1 := by
  unfold handleGroup
  split
  · exact keysNodup_cleanUpSession _ _ h
  · split
    · exact keysNodup_cleanUpSession _ _ h
    · split
      · exact keysNodup_cleanUpSession _ _ h
      · exact keysNodup_setButtonTimeout _ _ _ _
          (keysNodup_put _ _ _ (keysNodup_cleanUpSession _ _ h))

theorem keysNodup_handleSetgroup (env : Env) (store : Store) (m : TgMessage)
    (fresh : Nat) (h : keysNodup store) :
    keysNodup (handleSetgroup env store m fresh).1 := by
  unfold handleSetgroup
  split
  · exact keysNodup_cleanUpSession _ _ h
  · split
    · exact keysNodup_cleanUpSession _ _ h
    · split
      · exact keysNodup_cleanUpSession _ _ h
      · exact keysNodup_put _ _ _ (keysNodup_cleanUpSession _ _ h)

theorem keysNodup_handleExpense (env : Env) (store : Store) (m : TgMessage)
    (fresh : Nat) (h : keysNodup store) :
    keysNodup (handleExpense env store m fresh).1 := by
  unfold handleExpense
  split
  · exact keysNodup_cleanUpSession _ _ h
  · split
    · exact keysNodup_cleanUpSession _ _ h
    · exact keysNodup_put _ _ _ (keysNodup_cleanUpSession _ _ h)

theorem keysNodup_handleBalance (env : Env) (store : Store) (m : TgMessage)
    (fresh : Nat) (h : keysNodup store) :
    keysNodup (handleBalance env store m fresh).1 := by
  unfold handleBalance
  split
  · exact keysNodup_cleanUpSession _ _ h
  · split
    · exact keysNodup_cleanUpSession _ _ h
    · split
      · exact keysNodup_cleanUpSession _ _ h
      · exact keysNodup_cleanUpSession _ _ h

theorem keysNodup_handleMessage (store : Store) (m : TgMessage) (fresh : Nat)
    (h : keysNodup store) : keysNodup (handleMessage store m fresh).1 := by
  unfold handleMessage
  dsimp only
  repeat' split
  all_goals first
    | exact h
    | exact keysNodup_put _ _ _ h
    | exact keysNodup_put _ _ _ (keysNodup_put _ _ _ h)

theorem keysNodup_dispatchCallback (env : Env) (store : Store) (q : CallbackQuery)
    (fresh tid : Nat) (h : keysNodup store) :
    keysNodup (dispatchCallback env store q fresh tid).1 := by
  unfold dispatchCallback
  dsimp only
  repeat' split
  all_goals first
    | exact h
    | exact keysNodup_put _ _ _ h
    | exact keysNodup_remove _ _ h
    | exact keysNodup_setButtonTimeout _ _ _ _ (keysNodup_put _ _ _ h)

theorem keysNodup_handleCallbackQuery (env : Env) (store : Store) (q : CallbackQuery)
    (fresh tid : Nat) (h : keysNodup store) :
    keysNodup (handleCallbackQuery env store q fresh tid).1 := by
  unfold handleCallbackQuery
  dsimp only
  repeat' split
  all_goals first
    | exact h
    | exact keysNodup_put _ _ _ h
    | exact keysNodup_dispatchCallback _ _ _ _ _ h
    | exact keysNodup_dispatchCallback _ _ _ _ _ (keysNodup_put _ _ _ h)

theorem keysNodup_onExpire (store : Store) (c : ChatId) (mid fresh : Nat)
    (h : keysNodup store) : keysNodup (onExpire store c mid fresh).1 := by
  exact keysNodup_remove _ _ h

theorem keysNodup_stepEvent (env : Env) (store : Store) (e : Event)
    (h : keysNodup store) : keysNodup (stepEvent env store e).1 := by
  cases e with
  | command c m fresh tid =>
      cases c with
      | login => exact keysNodup_handleLogin _ _ _ _ h
      | unlink => exact keysNodup_handleUnlink _ _ _ _ h
      | group => exact keysNodup_handleGroup _ _ _ _ _ h
      | setgroup => exact keysNodup_handleSetgroup _ _ _ _ h
      | expense => exact keysNodup_handleExpense _ _ _ _ h
      | balance => exact keysNodup_handleBalance _ _ _ _ h
  | message m fresh => exact keysNodup_handleMessage _ _ _ h
  | press q fresh tid => exact keysNodup_handleCallbackQuery _ _ _ _ _ h
  | timerFire c mid fresh => exact keysNodup_onExpire _ _ _ _ h

theorem keysNodup_runEvents (store : Store) (evs : List (Env × Event))
    (h : keysNodup store) : keysNodup (runEvents store evs) := by
  induction evs generalizing store with
  | nil => exact h
  | cons p t ih =>
      exact ih _ (keysNodup_stepEvent p.1 store p.2 h)

end SWBot

namespace SWBot

/-! ## Dispatch-test helper lemmas for symbolic payload suffixes -/

theorem lsw_self (pre suffix : List Char) : lStartsWith pre (pre ++ suffix) = true := by
  induction pre with
  | nil => cases suffix <;> rfl
  | cons c t ih => simp [lStartsWith, List.isPrefixOf, ih]

theorem lsw_group_toggle (suffix : List Char) :
    lStartsWith ['g', 'r', 'o', 'u', 'p', '_']
      (['t', 'o', 'g', 'g', 'l', 'e', '_', 'm', 'e', 'm', 'b', 'e', 'r', '_'] ++ suffix)
      = false := rfl

theorem lsw_createExpense_toggle (suffix : List Char) :
    lStartsWith ['c', 'r', 'e', 'a', 't', 'e', 'E', 'x', 'p', 'e', 'n', 's', 'e', '_']
      (['t', 'o', 'g', 'g', 'l', 'e', '_', 'm', 'e', 'm', 'b', 'e', 'r', '_'] ++ suffix)
      = false := rfl

theorem lsw_setgroup_toggle (suffix : List Char) :
    lStartsWith ['s', 'e', 't', 'g', 'r', 'o', 'u', 'p', '_']
      (['t', 'o', 'g', 'g', 'l', 'e', '_', 'm', 'e', 'm', 'b', 'e', 'r', '_'] ++ suffix)
      = false := rfl

theorem toggle_eq_sey_iff (suffix : List Char) :
    ((['t', 'o', 'g', 'g', 'l', 'e', '_', 'm', 'e', 'm', 'b', 'e', 'r', '_'] ++ suffix) =
      ['s', 'p', 'l', 'i', 't', 'E', 'q', 'u', 'a', 'l', 'l', 'y', 'Y', 'e', 's']) ↔ False :=
  iff_false_intro (fun h =>
    absurd (show ('t' : Char) = 's' from congrArg (fun l => List.headD l 'z') h) (by decide))

theorem toggle_eq_sen_iff (suffix : List Char) :
    ((['t', 'o', 'g', 'g', 'l', 'e', '_', 'm', 'e', 'm', 'b', 'e', 'r', '_'] ++ suffix) =
      ['s', 'p', 'l', 'i', 't', 'E', 'q', 'u', 'a', 'l', 'l', 'y', 'N', 'o']) ↔ False :=
  iff_false_intro (fun h =>
    absurd (show ('t' : Char) = 's' from congrArg (fun l => List.headD l 'z') h) (by decide))

theorem toggle_eq_submit_iff (suffix : List Char) :
    ((['t', 'o', 'g', 'g', 'l', 'e', '_', 'm', 'e', 'm', 'b', 'e', 'r', '_'] ++ suffix) =
      ['s', 'u', 'b', 'm', 'i', 't', '_', 's', 'e', 'l', 'e', 'c', 't', 'e', 'd',
       '_', 'm', 'e', 'm', 'b', 'e', 'r', 's']) ↔ False :=
  iff_false_intro (fun h =>
    absurd (show ('t' : Char) = 's' from congrArg (fun l => List.headD l 'z') h) (by decide))

theorem lsw_group_createExpense (suffix : List Char) :
    lStartsWith ['g', 'r', 'o', 'u', 'p', '_']
      (['c', 'r', 'e', 'a', 't', 'e', 'E', 'x', 'p', 'e', 'n', 's', 'e', '_'] ++ suffix)
      = false := rfl

/-! ## Membership behaviour of the toggle -/

theorem toggleSel_nodup (sel : List Int) (a : Int) (h : sel.Nodup) :
    (toggleSel sel a).Nodup := by
  unfold toggleSel
  split
  · exact h.erase a
  · rw [List.nodup_append]
    exact ⟨h, List.nodup_singleton a, by simpa using fun hmem => by simp_all⟩

theorem mem_toggleSel (sel : List Int) (a x : Int) (h : sel.Nodup) :
    x ∈ toggleSel sel a ↔ (if x = a then a ∉ sel else x ∈ sel) := by
  rcases Decidable.em (a ∈ sel) with ha | ha
  · rcases Decidable.em (x = a) with hx | hx
    · subst hx
      rw [toggleSel, if_pos ha, if_pos rfl]
      simp [h.mem_erase_iff, ha]
    · rw [toggleSel, if_pos ha, if_neg hx]
      simp [h.mem_erase_iff, hx]
  · rcases Decidable.em (x = a) with hx | hx
    · subst hx
      rw [toggleSel, if_neg ha, if_pos rfl]
      simp [ha]
    · rw [toggleSel, if_neg ha, if_neg hx]
      simp [hx]

theorem mem_toggleSel_twice (sel : List Int) (a x : Int) (h : sel.Nodup) :
    x ∈ toggleSel (toggleSel sel a) a ↔ x ∈ sel := by
  by_cases hx : x = a
  · rw [hx]
    rw [mem_toggleSel _ _ _ (toggleSel_nodup sel a h), if_pos rfl,
        mem_toggleSel _ _ _ h, if_pos rfl]
    exact not_not
  · rw [mem_toggleSel _ _ _ (toggleSel_nodup sel a h), if_neg hx,
        mem_toggleSel _ _ _ h, if_neg hx]

end SWBot

namespace SWBot

/-! ## The toggle branch, as an equation on the whole press handler -/

/--
Branch dispatch for an owner's toggle press on a valid roster index:
an in-place `selectedMembers` update, one markup edit, fall-through.
-/
theorem dispatch_toggle (env : Env) (store : Store) (q : CallbackQuery)
    (fresh tid : Nat) (suffix : List Char) (s : Session) (ms : List Member)
    (mem : Member) (sel : List Int) (i : Nat)
    (hData : q.data.data = "toggle_member_".data ++ suffix)
    (hget : Store.get store q.chatId = some s)
    (hmem : s.members = some ms)
    (hsel : s.selectedMembers = some sel)
    (hIdx : jsParseIntDigits ((jsSplit '_' q.data.data).getD 2 []) = some i)
    (hms : ms.get? i = some mem) :
    dispatchCallback env store q fresh tid =
      (Store.put store q.chatId { s with selectedMembers := some (toggleSel sel mem.id) },
       [Effect.editMarkup q.messageId], true) := by
  rw [hData] at hIdx
  simp only [dispatchCallback, hData, lsw_group_toggle, lsw_createExpense_toggle,
    lsw_setgroup_toggle, toggle_eq_sey_iff, toggle_eq_sen_iff, lsw_self,
    Bool.false_eq_true, if_false, if_true, iff_false, hget, hmem, hIdx, hsel,
    Option.some_bind, hms]

end SWBot

namespace SWBot

/--
Branch dispatch for an owner's toggle press whose parsed index does not
denote a roster entry (out of range, or an unparseable index): the bounds
guard returns early with no store change and no effect.
-/
theorem dispatch_toggle_invalid (env : Env) (store : Store) (q : CallbackQuery)
    (fresh tid : Nat) (suffix : List Char) (s : Session) (ms : List Member)
    (hData : q.data.data = ['t', 'o', 'g', 'g', 'l', 'e', '_', 'm', 'e', 'm',
      'b', 'e', 'r', '_'] ++ suffix)
    (hget : Store.get store q.chatId = some s)
    (hmem : s.members = some ms)
    (hbad : (jsParseIntDigits ((jsSplit '_' q.data.data).getD 2 [])).bind ms.get? = none) :
    dispatchCallback env store q fresh tid = (store, [], false) := by
  rw [hData] at hbad
  simp only [dispatchCallback, hData, lsw_group_toggle, lsw_createExpense_toggle,
    lsw_setgroup_toggle, toggle_eq_sey_iff, toggle_eq_sen_iff, lsw_self,
    Bool.false_eq_true, if_false, if_true, iff_false, hget, hmem, hbad]

/--
A toggle press by the session owner on a valid roster index, for a session
with no armed timeout: the full handler performs a single in-place
`selectedMembers` update, edits the control's markup and answers the
press; no message is sent or deleted and no artifact is recorded.
-/
theorem handleCallback_toggle_step (env : Env) (store : Store) (q : CallbackQuery)
    (fresh tid : Nat) (suffix : List Char) (s : Session) (ms : List Member)
    (mem : Member) (sel : List Int) (i : Nat)
    (hData : q.data.data = "toggle_member_".data ++ suffix)
    (hget : Store.get store q.chatId = some s)
    (huid : s.userId = some q.fromId)
    (htimeout : s.timeout = none)
    (hmem : s.members = some ms)
    (hsel : s.selectedMembers = some sel)
    (hIdx : jsParseIntDigits ((jsSplit '_' q.data.data).getD 2 []) = some i)
    (hms : ms.get? i = some mem) :
    handleCallbackQuery env store q fresh tid =
      (Store.put store q.chatId { s with selectedMembers := some (toggleSel sel mem.id) },
       [Effect.editMarkup q.messageId, Effect.answerCallback false]) := by
  rw [handleCallbackQuery, hget]
  simp only [htimeout, huid, bne_self_eq_false, Bool.false_eq_true, if_false,
    dispatch_toggle env store q fresh tid suffix s ms mem sel i hData hget hmem hsel hIdx hms,
    if_true, List.nil_append, List.append_nil]
  rfl

end SWBot

namespace SWBot

/-! ## Claim theorems -/

/-- A default collaborator environment for concrete scenarios. -/
def env0 : Env := {}

theorem cleanUpSession_get_none (store : Store) (c : ChatId)
    (h : Store.get store c = none) : cleanUpSession store c = (store, []) := by
  rw [cleanUpSession, h]

/--
C10: running the session cleanup for a conversation with no stored session
is a complete no-op — the store (hence every other conversation's record
and timer) is returned unchanged and no deletion is attempted — and
cleanup is idempotent: running it a second time changes nothing and
attempts nothing.
-/
theorem c10_cleanup_noop_idempotent :
    (∀ (store : Store) (c : ChatId), Store.get store c = none →
        cleanUpSession store c = (store, [])) ∧
    (∀ (store : Store) (c : ChatId),
        cleanUpSession (cleanUpSession store c).1 c = ((cleanUpSession store c).1, [])) := by
  refine ⟨fun store c h => cleanUpSession_get_none store c h, fun store c => ?_⟩
  rcases hget : Store.get store c with _ | s
  · rw [cleanUpSession_get_none store c hget]
    exact cleanUpSession_get_none store c hget
  · have h1 : (cleanUpSession store c).1 = Store.remove store c := by
      rw [cleanUpSession, hget]
    rw [h1]
    exact cleanUpSession_get_none _ c (Store.get_remove_self store c)

/-- Witness for C10 at concrete inputs. -/
theorem c10_witness :
    cleanUpSession ([] : Store) 0 = ([], []) ∧
    cleanUpSession (cleanUpSession [((0 : Int), ({ userId := some 1 } : Session))] 0).1 0 =
      ((cleanUpSession [((0 : Int), ({ userId := some 1 } : Session))] 0).1, []) :=
  ⟨c10_cleanup_noop_idempotent.1 [] 0 rfl,
   c10_cleanup_noop_idempotent.2 [((0 : Int), ({ userId := some 1 } : Session))] 0⟩

/-- The concrete expiring session of the C3 scenario: owner 1, artifacts
`[10, 11]`, armed timer 3 on message 11. -/
def c3Session : Session :=
  { userId := some 1, messageIds := some [10, 11], timeout := some 3 }

/-- The concrete store of the C3 scenario. -/
def c3Store : Store := [((0 : Int), c3Session)]

/--
C3 (code bug): when the deadline fires for a session with recorded
artifacts `[10, 11]` (the armed control being message 11), the expiry
callback edits and deletes only the armed message, sends the notice (id
99), and removes the record — it never attempts deletion of artifact 10
nor of the just-sent notice, contrary to the specified cleanup step (c).
-/
theorem c3_expiry_no_artifact_flush :
    stepEvent env0 c3Store (Event.timerFire 0 11 99) =
      ([], [Effect.editMarkup 11, Effect.deleteMessage 11,
            Effect.send MsgText.sessionExpired 99]) ∧
    Effect.deleteMessage 10 ∉ (stepEvent env0 c3Store (Event.timerFire 0 11 99)).2 ∧
    Effect.deleteMessage 99 ∉ (stepEvent env0 c3Store (Event.timerFire 0 11 99)).2 := by
  decide

/-- The newer session that has replaced the armed one in the C4 scenario. -/
def c4Session : Session := { userId := some 99, messageIds := some [42] }

/-- The concrete store of the C4 scenario. -/
def c4Store : Store := [((0 : Int), c4Session)]

/--
C4 counterexample: the deadline fires after the armed session was replaced
by a fresh one (owner 99); the claim says the callback detects this and
no-ops, but it still sends the expiry notice and removes the newer record.
-/
theorem c4_counterexample :
    Effect.send MsgText.sessionExpired 7 ∈
      (stepEvent env0 c4Store (Event.timerFire 0 5 7)).2 ∧
    Store.get (stepEvent env0 c4Store (Event.timerFire 0 5 7)).1 0 = none := by
  decide

/--
C4 amended: the expiry callback performs no existence check at all — for
*every* store it edits and deletes the armed message, sends the expiry
notice, and removes whatever record the conversation currently has
(including a newer session created by another path), leaving other
conversations untouched.
-/
theorem c4_expiry_unconditional (env : Env) (store : Store) (c : ChatId) (mid fresh : Nat) :
    stepEvent env store (Event.timerFire c mid fresh) =
      (Store.remove store c,
       [Effect.editMarkup mid, Effect.deleteMessage mid,
        Effect.send MsgText.sessionExpired fresh]) ∧
    Store.get (stepEvent env store (Event.timerFire c mid fresh)).1 c = none ∧
    ∀ d : ChatId, d ≠ c →
      Store.get (stepEvent env store (Event.timerFire c mid fresh)).1 d = Store.get store d :=
  ⟨rfl, Store.get_remove_self store c,
   fun d hd => Store.get_remove_ne store c d (Ne.symm hd)⟩

/-- Witness for C4 at concrete inputs. -/
theorem c4_witness :
    Store.get (stepEvent env0 c4Store (Event.timerFire 0 5 7)).1 0 = none ∧
    Store.get (stepEvent env0 c4Store (Event.timerFire 0 5 7)).1 1 = Store.get c4Store 1 :=
  ⟨(c4_expiry_unconditional env0 c4Store 0 5 7).2.1,
   (c4_expiry_unconditional env0 c4Store 0 5 7).2.2 1 (by decide)⟩

end SWBot

namespace SWBot

/-- The armed session of the C1 scenario: owner 1, timer 7, one artifact. -/
def c1Session : Session :=
  { userId := some 1, timeout := some 7, messageIds := some [4] }

/-- The concrete store of the C1 scenario. -/
def c1Store : Store := [((0 : Int), c1Session)]

/-- A press on that session's control by the foreign user 2. -/
def c1Press : CallbackQuery := { chatId := 0, fromId := 2, messageId := 9, data := "x" }

/--
C1 counterexample: a foreign user's press on a session with an armed
timeout leaves the record *changed* — the entry-point timeout clearing
runs before the ownership check, so the armed deadline is disarmed.
-/
theorem c1_counterexample :
    Store.get (handleCallbackQuery env0 c1Store c1Press 50 60).1 0 ≠
      Store.get c1Store 0 ∧
    Store.get (handleCallbackQuery env0 c1Store c1Press 50 60).1 0 =
      some { userId := some 1, timeout := none, messageIds := some [4] } ∧
    Effect.clearTimer 7 ∈ (handleCallbackQuery env0 c1Store c1Press 50 60).2 := by
  decide

/--
C1 amended: a button press whose actor is not the session owner leaves
`step`, `context` and `artifacts` unchanged, records no artifact and is
answered with an alerted (visible, non-blocking) rejection — but the
handler first cancels any armed timeout, so the deadline is *not* as
before; the record is otherwise untouched, other conversations are
untouched, and the only effects are the timer clear and the alert answer.
-/
theorem c1_unauthorized_press (env : Env) (store : Store) (q : CallbackQuery)
    (fresh tid : Nat) (s : Session)
    (hget : Store.get store q.chatId = some s)
    (hno : s.userId ≠ some q.fromId) :
    Store.get (handleCallbackQuery env store q fresh tid).1 q.chatId =
      some { s with timeout := none } ∧
    (∀ d : ChatId, d ≠ q.chatId →
      Store.get (handleCallbackQuery env store q fresh tid).1 d = Store.get store d) ∧
    (handleCallbackQuery env store q fresh tid).2 =
      (match s.timeout with
       | some t => [Effect.clearTimer t]
       | none => ([] : List Effect)) ++ [Effect.answerCallback true] := by
  have hb : (s.userId != some q.fromId) = true := bne_iff_ne.2 hno
  rcases htimeout : s.timeout with _ | t
  · have hsess : ({ s with timeout := none } : Session) = s := by
      cases s
      simp_all
    rw [handleCallbackQuery, hget]
    simp only [htimeout, hb, if_true, List.nil_append]
    exact ⟨by rw [hsess]; exact hget, fun d hd => trivial, trivial⟩
  · rw [handleCallbackQuery, hget]
    simp only [htimeout, hb, if_true]
    refine ⟨Store.get_put_self store q.chatId _, fun d hd => ?_, trivial⟩
    exact Store.get_put_ne store q.chatId d _ (Ne.symm hd)

/-- Witness for C1 at concrete inputs. -/
theorem c1_witness :
    Store.get (handleCallbackQuery env0 c1Store c1Press 50 60).1 0 =
      some { c1Session with timeout := none } ∧
    Store.get (handleCallbackQuery env0 c1Store c1Press 50 60).1 5 = Store.get c1Store 5 ∧
    (handleCallbackQuery env0 c1Store c1Press 50 60).2 =
      [Effect.clearTimer 7, Effect.answerCallback true] :=
  ⟨(c1_unauthorized_press env0 c1Store c1Press 50 60 c1Session (by decide) (by decide)).1,
   (c1_unauthorized_press env0 c1Store c1Press 50 60 c1Session (by decide) (by decide)).2.1
     5 (by decide),
   (c1_unauthorized_press env0 c1Store c1Press 50 60 c1Session (by decide) (by decide)).2.2⟩

end SWBot

namespace SWBot

/--
C9: in the member-selection state, a toggle press by the owner whose index
does not denote a roster entry (the `!members[memberIdx]` bounds guard,
covering out-of-range and unparseable indices) leaves the store — hence
the selected set, step, context and artifacts of every conversation —
completely unchanged and produces no effect at all: nothing is sent,
deleted, edited or recorded.
-/
theorem c9_toggle_invalid_index (env : Env) (store : Store) (q : CallbackQuery)
    (fresh tid : Nat) (suffix : List Char) (s : Session) (ms : List Member)
    (hData : q.data.data = "toggle_member_".data ++ suffix)
    (hget : Store.get store q.chatId = some s)
    (huid : s.userId = some q.fromId)
    (htimeout : s.timeout = none)
    (hmem : s.members = some ms)
    (hbad : (jsParseIntDigits ((jsSplit '_' q.data.data).getD 2 [])).bind ms.get? = none) :
    handleCallbackQuery env store q fresh tid = (store, []) := by
  rw [handleCallbackQuery, hget]
  simp only [htimeout, huid, bne_self_eq_false, Bool.false_eq_true, if_false,
    dispatch_toggle_invalid env store q fresh tid suffix s ms hData hget hmem hbad,
    List.nil_append, List.append_nil]

/-- The member-selection session of the C9 scenario: one roster entry. -/
def c9Session : Session :=
  { userId := some 1, step := some "splitEqually",
    members := some [{ id := 5, firstName := "a", lastName := "b" }],
    selectedMembers := some [], messageIds := some [2] }

/-- The concrete store of the C9 scenario. -/
def c9Store : Store := [((0 : Int), c9Session)]

/-- An owner press on the out-of-range member index 99. -/
def c9Press : CallbackQuery :=
  { chatId := 0, fromId := 1, messageId := 3, data := "toggle_member_99" }

/-- Witness for C9 at concrete inputs. -/
theorem c9_witness :
    handleCallbackQuery env0 c9Store c9Press 50 60 = (c9Store, []) :=
  c9_toggle_invalid_index env0 c9Store c9Press 50 60 "99".data c9Session
    [{ id := 5, firstName := "a", lastName := "b" }]
    (by decide) (by decide) (by decide) (by decide) (by decide) (by decide)

/--
C7: in the member-selection state, an owner's toggle press on roster
index `i` (member `mem`) edits the control in place, answers the press,
records no artifact, sends and deletes nothing, and replaces
`selectedMembers` by its toggle: membership of `mem.id` flips while every
other id's membership is untouched; toggling the same member twice
returns the selection, both in the resulting session record and as a set,
to exactly its original membership.
-/
theorem c7_toggle_membership (env : Env) (store : Store) (q : CallbackQuery)
    (fresh tid : Nat) (suffix : List Char) (s : Session) (ms : List Member)
    (mem : Member) (sel : List Int) (i : Nat)
    (hData : q.data.data = "toggle_member_".data ++ suffix)
    (hget : Store.get store q.chatId = some s)
    (huid : s.userId = some q.fromId)
    (htimeout : s.timeout = none)
    (hmem : s.members = some ms)
    (hsel : s.selectedMembers = some sel)
    (hNodup : sel.Nodup)
    (hIdx : jsParseIntDigits ((jsSplit '_' q.data.data).getD 2 []) = some i)
    (hms : ms.get? i = some mem) :
    handleCallbackQuery env store q fresh tid =
      (Store.put store q.chatId { s with selectedMembers := some (toggleSel sel mem.id) },
       [Effect.editMarkup q.messageId, Effect.answerCallback false]) ∧
    (∀ x : Int, x ∈ toggleSel sel mem.id ↔
      (if x = mem.id then mem.id ∉ sel else x ∈ sel)) ∧
    (Store.get (handleCallbackQuery env (handleCallbackQuery env store q fresh tid).1
        q fresh tid).1 q.chatId).map Session.selectedMembers =
      some (some (toggleSel (toggleSel sel mem.id) mem.id)) ∧
    (∀ x : Int, x ∈ toggleSel (toggleSel sel mem.id) mem.id ↔ x ∈ sel) := by
  have hstep := handleCallback_toggle_step env store q fresh tid suffix s ms mem sel i
    hData hget huid htimeout hmem hsel hIdx hms
  refine ⟨hstep, fun x => mem_toggleSel sel mem.id x hNodup, ?_,
    fun x => mem_toggleSel_twice sel mem.id x hNodup⟩
  have hget2 : Store.get (handleCallbackQuery env store q fresh tid).1 q.chatId =
      some { s with selectedMembers := some (toggleSel sel mem.id) } := by
    rw [hstep]
    exact Store.get_put_self store q.chatId _
  have hstep2 := handleCallback_toggle_step env
    (handleCallbackQuery env store q fresh tid).1 q fresh tid suffix
    { s with selectedMembers := some (toggleSel sel mem.id) } ms mem
    (toggleSel sel mem.id) i hData hget2 huid htimeout hmem rfl hIdx hms
  rw [hstep2, Store.get_put_self]
  rfl

/-- The member-selection session of the C7 scenario. -/
def c7Session : Session :=
  { userId := some 1, step := some "splitEqually",
    members := some [{ id := 5, firstName := "a", lastName := "b" }],
    selectedMembers := some [], messageIds := some [2] }

/-- The concrete store of the C7 scenario. -/
def c7Store : Store := [((0 : Int), c7Session)]

/-- An owner press toggling member index 0. -/
def c7Press : CallbackQuery :=
  { chatId := 0, fromId := 1, messageId := 3, data := "toggle_member_0" }

/-- Witness for C7 at concrete inputs. -/
theorem c7_witness :
    handleCallbackQuery env0 c7Store c7Press 50 60 =
      (Store.put c7Store 0 { c7Session with selectedMembers := some (toggleSel [] 5) },
       [Effect.editMarkup 3, Effect.answerCallback false]) ∧
    ((5 : Int) ∈ toggleSel ([] : List Int) 5 ↔
      (if (5 : Int) = 5 then (5 : Int) ∉ ([] : List Int) else (5 : Int) ∈ ([] : List Int))) ∧
    ((7 : Int) ∈ toggleSel (toggleSel ([] : List Int) 5) 5 ↔ (7 : Int) ∈ ([] : List Int)) :=
  ⟨(c7_toggle_membership env0 c7Store c7Press 50 60 "0".data c7Session
      [{ id := 5, firstName := "a", lastName := "b" }]
      { id := 5, firstName := "a", lastName := "b" } [] 0
      (by decide) (by decide) (by decide) (by decide) (by decide) (by decide)
      (by decide) (by decide) (by decide)).1,
   (c7_toggle_membership env0 c7Store c7Press 50 60 "0".data c7Session
      [{ id := 5, firstName := "a", lastName := "b" }]
      { id := 5, firstName := "a", lastName := "b" } [] 0
      (by decide) (by decide) (by decide) (by decide) (by decide) (by decide)
      (by decide) (by decide) (by decide)).2.1 5,
   (c7_toggle_membership env0 c7Store c7Press 50 60 "0".data c7Session
      [{ id := 5, firstName := "a", lastName := "b" }]
      { id := 5, firstName := "a", lastName := "b" } [] 0
      (by decide) (by decide) (by decide) (by decide) (by decide) (by decide)
      (by decide) (by decide) (by decide)).2.2.2 7⟩

end SWBot

namespace SWBot

/-- The three-member roster of the equal-split scenario ("Dinner", 30.00,
three selected members). -/
def dinnerMembers : List Member :=
  [{ id := 1, firstName := "A", lastName := "A" },
   { id := 2, firstName := "B", lastName := "B" },
   { id := 3, firstName := "C", lastName := "C" }]

/--
C6: in the custom-split payload, every emitted per-member entry carries
`paid_share = owed_share = toFixed2 (amount / selectedMembers.length)`,
and every selected member found in the roster gets such an entry; in the
concrete scenario amount 30.00 with 3 selected members, every entry's
shares are 10.00 and the paid shares sum to exactly 30.00.
-/
theorem c6_custom_split_shares :
    (∀ (members : List Member) (sel : List Int) (a : ℚ) (e : Nat × Int × ℚ × ℚ),
        e ∈ usersPayload members sel a →
        e.2.2.1 = toFixed2 (a / (sel.length : ℚ)) ∧
        e.2.2.2 = toFixed2 (a / (sel.length : ℚ))) ∧
    (∀ (members : List Member) (sel : List Int) (a : ℚ) (i : Nat) (mid : Int)
        (mem : Member),
        sel.get? i = some mid →
        List.find? (fun m => m.id == mid) members = some mem →
        (i, mid, toFixed2 (a / (sel.length : ℚ)), toFixed2 (a / (sel.length : ℚ)))
          ∈ usersPayload members sel a) ∧
    (∀ e ∈ usersPayload dinnerMembers [1, 2, 3] 30,
        e.2.2.1 = 10 ∧ e.2.2.2 = 10) ∧
    ((usersPayload dinnerMembers [1, 2, 3] 30).map (fun e => e.2.2.1)).sum = 30 := by
  have hshape : ∀ (members : List Member) (sel : List Int) (a : ℚ)
      (e : Nat × Int × ℚ × ℚ), e ∈ usersPayload members sel a →
      e.2.2.1 = toFixed2 (a / (sel.length : ℚ)) ∧
      e.2.2.2 = toFixed2 (a / (sel.length : ℚ)) := by
    intro members sel a e he
    rw [usersPayload] at he
    rcases List.mem_filterMap.1 he with ⟨p, _, hp⟩
    rcases hfind : List.find? (fun m => m.id == p.2) members with _ | m
    · rw [hfind] at hp
      exact Option.noConfusion hp
    · rw [hfind] at hp
      injection hp with hp
      rw [← hp]
      exact ⟨rfl, rfl⟩
  have h10 : toFixed2 ((30 : ℚ) / ((List.length [(1 : Int), 2, 3] : ℕ) : ℚ)) = 10 := by
    norm_num [toFixed2]
  refine ⟨hshape, ?_, ?_, ?_⟩
  · intro members sel a i mid mem hsel hfind
    rw [usersPayload]
    refine List.mem_filterMap.2 ⟨(i, mid), ?_, ?_⟩
    · refine List.mk_mem_enum_iff_getElem?.2 ?_
      rw [← List.get?_eq_getElem?]
      exact hsel
    · rw [hfind]
      rfl
  · intro e he
    have h := hshape dinnerMembers [1, 2, 3] 30 e he
    rw [h10] at h
    exact h
  · have hpay : usersPayload dinnerMembers [1, 2, 3] 30 =
        [(0, 1, toFixed2 ((30 : ℚ) / ((List.length [(1 : Int), 2, 3] : ℕ) : ℚ)),
              toFixed2 ((30 : ℚ) / ((List.length [(1 : Int), 2, 3] : ℕ) : ℚ))),
         (1, 2, toFixed2 ((30 : ℚ) / ((List.length [(1 : Int), 2, 3] : ℕ) : ℚ)),
              toFixed2 ((30 : ℚ) / ((List.length [(1 : Int), 2, 3] : ℕ) : ℚ))),
         (2, 3, toFixed2 ((30 : ℚ) / ((List.length [(1 : Int), 2, 3] : ℕ) : ℚ)),
              toFixed2 ((30 : ℚ) / ((List.length [(1 : Int), 2, 3] : ℕ) : ℚ)))] := rfl
    rw [hpay, h10]
    norm_num

/-- Witness for C6 at concrete inputs. -/
theorem c6_witness :
    ((0 : Nat), (1 : Int), toFixed2 ((30 : ℚ) / ((List.length [(1 : Int), 2, 3] : ℕ) : ℚ)),
        toFixed2 ((30 : ℚ) / ((List.length [(1 : Int), 2, 3] : ℕ) : ℚ)))
      ∈ usersPayload dinnerMembers [1, 2, 3] 30 :=
  c6_custom_split_shares.2.1 dinnerMembers [1, 2, 3] 30 0 1
    { id := 1, firstName := "A", lastName := "A" } (by decide) (by decide)

end SWBot

namespace SWBot

/--
C5: in the `awaiting_amount` step (session owner sending the text), the
input `"10"` stores amount 10.00 with the fixed fallback currency `"SGD"`
and advances to the split-choice step; `"10 USD"` stores amount 10.00 with
currency `"USD"`; and each of `"-5"`, `"abc"`, `""` is rejected with a
re-prompt, leaving `step` and every context field unchanged (only the
user's own message id is recorded).
-/
theorem c5_amount_parsing (store : Store) (chatId : ChatId) (uid : Int)
    (mid fresh : Nat) (s : Session)
    (hget : Store.get store chatId = some s)
    (huid : s.userId = some uid)
    (hstep : s.step = some "awaiting_amount") :
    (Store.get (handleMessage store
        { chatId := chatId, fromId := uid, messageId := mid, text := "10" } fresh).1 chatId =
      some { s with amount := some 10, currencyCode := some "SGD",
                    step := some "splitEqually",
                    messageIds := some (s.messageIds.getD [] ++ [mid] ++ [fresh]) } ∧
     (handleMessage store
        { chatId := chatId, fromId := uid, messageId := mid, text := "10" } fresh).2 =
      [Effect.send MsgText.splitEquallyPrompt fresh]) ∧
    (Store.get (handleMessage store
        { chatId := chatId, fromId := uid, messageId := mid, text := "10 USD" } fresh).1 chatId =
      some { s with amount := some 10, currencyCode := some "USD",
                    step := some "splitEqually",
                    messageIds := some (s.messageIds.getD [] ++ [mid] ++ [fresh]) } ∧
     (handleMessage store
        { chatId := chatId, fromId := uid, messageId := mid, text := "10 USD" } fresh).2 =
      [Effect.send MsgText.splitEquallyPrompt fresh]) ∧
    (∀ tx ∈ (["-5", "abc", ""] : List String),
      Store.get (handleMessage store
          { chatId := chatId, fromId := uid, messageId := mid, text := tx } fresh).1 chatId =
        some { s with messageIds := some (s.messageIds.getD [] ++ [mid]) } ∧
      (handleMessage store
          { chatId := chatId, fromId := uid, messageId := mid, text := tx } fresh).2 =
        [Effect.send MsgText.invalidAmountFormat fresh]) := by
  have hD : ((some "awaiting_amount" : Option String) = some "awaiting_description") = False :=
    eq_false (by decide)
  have hm1 : matchAmount (jsTrim ['1', '0']) = some (['1', '0'], none) := rfl
  have hm2 : matchAmount (jsTrim ['1', '0', ' ', 'U', 'S', 'D']) =
      some (['1', '0'], some ['U', 'S', 'D']) := rfl
  have hm3 : matchAmount (jsTrim ['-', '5']) = none := rfl
  have hm4 : matchAmount (jsTrim ['a', 'b', 'c']) = none := rfl
  have hm5 : matchAmount (jsTrim ([] : List Char)) = none := rfl
  have hp : parseDecimal ['1', '0'] = 10 := rfl
  have hneg : ((10 : ℚ) ≤ 0) = False := by norm_num
  refine ⟨⟨?_, ?_⟩, ⟨?_, ?_⟩, ?_⟩
  · simp only [handleMessage, hget, huid, hstep, hD, hm1, hp, hneg, if_true, if_false,
      Option.getD_some, eq_self_iff_true, Store.get_put_self]
    rfl
  · simp only [handleMessage, hget, huid, hstep, hD, hm1, hp, hneg, if_true, if_false,
      Option.getD_some, eq_self_iff_true]
  · simp only [handleMessage, hget, huid, hstep, hD, hm2, hp, hneg, if_true, if_false,
      Option.getD_some, eq_self_iff_true, Store.get_put_self]
    rfl
  · simp only [handleMessage, hget, huid, hstep, hD, hm2, hp, hneg, if_true, if_false,
      Option.getD_some, eq_self_iff_true]
  · intro tx htx
    simp only [List.mem_cons, List.not_mem_nil, or_false] at htx
    rcases htx with h | h | h
    · subst h
      constructor
      · simp only [handleMessage, hget, huid, hstep, hD, hm3, if_true, if_false,
          Option.getD_some, eq_self_iff_true, Store.get_put_self]
      · simp only [handleMessage, hget, huid, hstep, hD, hm3, if_true, if_false,
          Option.getD_some, eq_self_iff_true]
    · subst h
      constructor
      · simp only [handleMessage, hget, huid, hstep, hD, hm4, if_true, if_false,
          Option.getD_some, eq_self_iff_true, Store.get_put_self]
      · simp only [handleMessage, hget, huid, hstep, hD, hm4, if_true, if_false,
          Option.getD_some, eq_self_iff_true]
    · subst h
      constructor
      · simp only [handleMessage, hget, huid, hstep, hD, hm5, if_true, if_false,
          Option.getD_some, eq_self_iff_true, Store.get_put_self]
      · simp only [handleMessage, hget, huid, hstep, hD, hm5, if_true, if_false,
          Option.getD_some, eq_self_iff_true]

end SWBot

namespace SWBot

/-- The awaiting-amount session of the C5 scenario. -/
def c5Session : Session :=
  { userId := some 1, step := some "awaiting_amount", groupId := some "g",
    description := some "Dinner", messageIds := some [2] }

/-- The concrete store of the C5 scenario. -/
def c5Store : Store := [((0 : Int), c5Session)]

/-- Witness for C5 at concrete inputs. -/
theorem c5_witness :
    (Store.get (handleMessage c5Store
        { chatId := 0, fromId := 1, messageId := 4, text := "10" } 8).1 0 =
      some { c5Session with amount := some 10, currencyCode := some "SGD",
                            step := some "splitEqually",
                            messageIds := some (c5Session.messageIds.getD [] ++ [4] ++ [8]) }) ∧
    (Store.get (handleMessage c5Store
        { chatId := 0, fromId := 1, messageId := 4, text := "-5" } 8).1 0 =
      some { c5Session with messageIds := some (c5Session.messageIds.getD [] ++ [4]) }) ∧
    (handleMessage c5Store
        { chatId := 0, fromId := 1, messageId := 4, text := "-5" } 8).2 =
      [Effect.send MsgText.invalidAmountFormat 8] :=
  ⟨(c5_amount_parsing c5Store 0 1 4 8 c5Session (by decide) (by decide) (by decide)).1.1,
   ((c5_amount_parsing c5Store 0 1 4 8 c5Session (by decide) (by decide) (by decide)).2.2
      "-5" (by decide)).1,
   ((c5_amount_parsing c5Store 0 1 4 8 c5Session (by decide) (by decide) (by decide)).2.2
      "-5" (by decide)).2⟩

end SWBot

namespace SWBot

/--
Branch dispatch for a payload matching none of the handler's patterns:
nothing happens and control falls through to the final acknowledgment.
-/
theorem dispatch_unmatched (env : Env) (store : Store) (q : CallbackQuery)
    (fresh tid : Nat)
    (h1 : lStartsWith ['g', 'r', 'o', 'u', 'p', '_'] q.data.data = false)
    (h2 : lStartsWith ['c', 'r', 'e', 'a', 't', 'e', 'E', 'x', 'p', 'e', 'n', 's', 'e', '_']
            q.data.data = false)
    (h3 : lStartsWith ['s', 'e', 't', 'g', 'r', 'o', 'u', 'p', '_'] q.data.data = false)
    (h4 : q.data.data ≠ ['s', 'p', 'l', 'i', 't', 'E', 'q', 'u', 'a', 'l', 'l', 'y', 'Y', 'e', 's'])
    (h5 : q.data.data ≠ ['s', 'p', 'l', 'i', 't', 'E', 'q', 'u', 'a', 'l', 'l', 'y', 'N', 'o'])
    (h6 : lStartsWith ['t', 'o', 'g', 'g', 'l', 'e', '_', 'm', 'e', 'm', 'b', 'e', 'r', '_']
            q.data.data = false)
    (h7 : q.data.data ≠ ['s', 'u', 'b', 'm', 'i', 't', '_', 's', 'e', 'l', 'e', 'c', 't',
            'e', 'd', '_', 'm', 'e', 'm', 'b', 'e', 'r', 's']) :
    dispatchCallback env store q fresh tid = (store, [], true) := by
  simp only [dispatchCallback, h1, h2, h3, h6, eq_false h4, eq_false h5, eq_false h7,
    Bool.false_eq_true, if_false]

/--
C8 amended: not every press is acknowledged.  Two positive facts hold: a
press rejected by the ownership guard is answered (with an alert), and a
press whose payload matches no dispatch branch is answered plainly; but
branch-internal early-return paths (see the counterexample) complete
without answering.
-/
theorem c8_answer_acknowledgment :
    (∀ (env : Env) (store : Store) (q : CallbackQuery) (fresh tid : Nat) (s : Session),
      Store.get store q.chatId = some s → s.userId ≠ some q.fromId →
      Effect.answerCallback true ∈ (handleCallbackQuery env store q fresh tid).2) ∧
    (∀ (env : Env) (store : Store) (q : CallbackQuery) (fresh tid : Nat),
      (∀ s : Session, Store.get store q.chatId = some s → s.userId = some q.fromId) →
      lStartsWith ['g', 'r', 'o', 'u', 'p', '_'] q.data.data = false →
      lStartsWith ['c', 'r', 'e', 'a', 't', 'e', 'E', 'x', 'p', 'e', 'n', 's', 'e', '_']
        q.data.data = false →
      lStartsWith ['s', 'e', 't', 'g', 'r', 'o', 'u', 'p', '_'] q.data.data = false →
      q.data.data ≠ ['s', 'p', 'l', 'i', 't', 'E', 'q', 'u', 'a', 'l', 'l', 'y', 'Y', 'e', 's'] →
      q.data.data ≠ ['s', 'p', 'l', 'i', 't', 'E', 'q', 'u', 'a', 'l', 'l', 'y', 'N', 'o'] →
      lStartsWith ['t', 'o', 'g', 'g', 'l', 'e', '_', 'm', 'e', 'm', 'b', 'e', 'r', '_']
        q.data.data = false →
      q.data.data ≠ ['s', 'u', 'b', 'm', 'i', 't', '_', 's', 'e', 'l', 'e', 'c', 't',
        'e', 'd', '_', 'm', 'e', 'm', 'b', 'e', 'r', 's'] →
      Effect.answerCallback false ∈ (handleCallbackQuery env store q fresh tid).2) := by
  constructor
  · intro env store q fresh tid s hget hno
    have hb : (s.userId != some q.fromId) = true := bne_iff_ne.2 hno
    rw [handleCallbackQuery, hget]
    simp only [hb, if_true]
    rcases s.timeout with _ | t
    · exact List.mem_append_right _ (List.mem_singleton_self _)
    · exact List.mem_append_right _ (List.mem_singleton_self _)
  · intro env store q fresh tid hauth h1 h2 h3 h4 h5 h6 h7
    rcases hget : Store.get store q.chatId with _ | s
    · rw [handleCallbackQuery, hget]
      simp only [dispatch_unmatched env store q fresh tid h1 h2 h3 h4 h5 h6 h7,
        if_true, if_false, List.append_nil, List.nil_append]
      exact List.mem_singleton_self _
    · have hb : (s.userId != some q.fromId) = false := by
        rw [hauth s hget]
        exact bne_self_eq_false (some q.fromId)
      rw [handleCallbackQuery, hget]
      rcases htimeout : s.timeout with _ | t
      · simp only [htimeout, hb, Bool.false_eq_true, if_false,
          dispatch_unmatched env store q fresh tid h1 h2 h3 h4 h5 h6 h7,
          if_true, List.append_nil, List.nil_append]
        exact List.mem_singleton_self _
      · simp only [htimeout, hb, Bool.false_eq_true, if_false,
          dispatch_unmatched env
            (Store.put store q.chatId { s with timeout := none }) q fresh tid
            h1 h2 h3 h4 h5 h6 h7,
          if_true, List.append_nil, List.nil_append]
      -- effects: [clearTimer t] ++ [answerCallback false]
        exact List.mem_append_right _ (List.mem_singleton_self _)

end SWBot

namespace SWBot

/-- The session of the C8 scenarios: owner 1, no armed timeout. -/
def c8Session : Session := { userId := some 1, messageIds := some [] }

/-- The concrete store of the C8 scenarios. -/
def c8Store : Store := [((0 : Int), c8Session)]

/--
C8 counterexample: an owner's `group_…` press processed with no stored
credential runs the branch's early `return` (after sending the
not-logged-in message) and never reaches `bot.answerCallbackQuery`, so the
press is left unanswered — the claim that every press is acknowledged on
every control path fails.
-/
theorem c8_counterexample :
    (handleCallbackQuery env0 c8Store
        { chatId := 0, fromId := 1, messageId := 9, data := "group_5" } 50 60).2 =
      [Effect.send MsgText.notLoggedIn 50] ∧
    Effect.answerCallback true ∉ (handleCallbackQuery env0 c8Store
        { chatId := 0, fromId := 1, messageId := 9, data := "group_5" } 50 60).2 ∧
    Effect.answerCallback false ∉ (handleCallbackQuery env0 c8Store
        { chatId := 0, fromId := 1, messageId := 9, data := "group_5" } 50 60).2 := by
  decide

/-- Witness for C8 at concrete inputs. -/
theorem c8_witness :
    Effect.answerCallback true ∈ (handleCallbackQuery env0 c8Store
        { chatId := 0, fromId := 2, messageId := 9, data := "zzz" } 50 60).2 ∧
    Effect.answerCallback false ∈ (handleCallbackQuery env0 c8Store
        { chatId := 0, fromId := 1, messageId := 9, data := "zzz" } 50 60).2 :=
  ⟨c8_answer_acknowledgment.1 env0 c8Store
      { chatId := 0, fromId := 2, messageId := 9, data := "zzz" } 50 60 c8Session
      (by decide) (by decide),
   c8_answer_acknowledgment.2 env0 c8Store
      { chatId := 0, fromId := 1, messageId := 9, data := "zzz" } 50 60
      (by decide) (by decide) (by decide) (by decide) (by decide) (by decide)
      (by decide) (by decide)⟩

end SWBot

namespace SWBot

/--
Branch dispatch for a "Create expense in group" press: the session record
is overwritten with a fresh wizard record — the previous record's
artifacts are not deleted and no cleanup runs — and the description
prompt is sent.
-/
theorem dispatch_createExpense (env : Env) (store : Store) (q : CallbackQuery)
    (fresh tid : Nat) (suffix : List Char)
    (hData : q.data.data =
      ['c', 'r', 'e', 'a', 't', 'e', 'E', 'x', 'p', 'e', 'n', 's', 'e', '_'] ++ suffix) :
    dispatchCallback env store q fresh tid =
      (Store.put store q.chatId
        { step := some "awaiting_description",
          groupId := some (String.mk ((jsSplit '_' q.data.data).getD 1 [])),
          userId := some q.fromId, messageIds := some [fresh] },
       [Effect.send MsgText.expenseDescriptionPrompt fresh], true) := by
  simp only [dispatchCallback, hData, lsw_group_createExpense, lsw_self,
    Bool.false_eq_true, if_false, if_true]

/--
C2 amended: (1) after any sequence of inbound events the session store
still has at most one record per conversation (distinct keys are
preserved by every handler); (2) each flow-opening *command* (`/login`,
`/group`, `/setgroup`, `/expense`) runs the full cleanup protocol for any
old session first — its effect trace begins with exactly the cleanup's
timer clear and artifact-deletion attempts; but (3) the
create-expense-in-group *button* does not: it overwrites the record with
the fresh wizard session directly, and no deletion of the old session's
artifacts is ever attempted.
-/
theorem c2_single_session_and_cleanup :
    (∀ (store : Store) (evs : List (Env × Event)), keysNodup store →
        keysNodup (runEvents store evs)) ∧
    (∀ c : Cmd, (c = Cmd.login ∨ c = Cmd.group ∨ c = Cmd.setgroup ∨ c = Cmd.expense) →
      ∀ (env : Env) (store : Store) (m : TgMessage) (fresh tid : Nat),
        ∃ tail, (stepEvent env store (Event.command c m fresh tid)).2 =
          (cleanUpSession store m.chatId).2 ++ tail) ∧
    (∀ (env : Env) (store : Store) (q : CallbackQuery) (fresh tid : Nat)
        (suffix : List Char) (s : Session),
        q.data.data =
          ['c', 'r', 'e', 'a', 't', 'e', 'E', 'x', 'p', 'e', 'n', 's', 'e', '_'] ++ suffix →
        Store.get store q.chatId = some s →
        s.userId = some q.fromId →
        Store.get (handleCallbackQuery env store q fresh tid).1 q.chatId =
          some { step := some "awaiting_description",
                 groupId := some (String.mk ((jsSplit '_' q.data.data).getD 1 [])),
                 userId := some q.fromId, messageIds := some [fresh] } ∧
        ∀ mid ∈ s.messageIds.getD [],
          Effect.deleteMessage mid ∉ (handleCallbackQuery env store q fresh tid).2) := by
  refine ⟨fun store evs h => keysNodup_runEvents store evs h, ?_, ?_⟩
  · intro c hc env store m fresh tid
    rcases hc with h | h | h | h <;> subst h
    · simp only [stepEvent, handleLogin]
      repeat' split
      all_goals exact ⟨_, rfl⟩
    · simp only [stepEvent, handleGroup]
      repeat' split
      all_goals first
        | exact ⟨_, rfl⟩
        | exact ⟨_, List.append_assoc _ _ _⟩
    · simp only [stepEvent, handleSetgroup]
      repeat' split
      all_goals exact ⟨_, rfl⟩
    · simp only [stepEvent, handleExpense]
      repeat' split
      all_goals exact ⟨_, rfl⟩
  · intro env store q fresh tid suffix s hData hget huid
    have hb : (s.userId != some q.fromId) = false := by
      rw [huid]
      exact bne_self_eq_false (some q.fromId)
    rcases htimeout : s.timeout with _ | t
    · rw [handleCallbackQuery, hget]
      simp only [htimeout, hb, Bool.false_eq_true, if_false,
        dispatch_createExpense env store q fresh tid suffix hData, if_true,
        List.nil_append]
      refine ⟨Store.get_put_self store q.chatId _, ?_⟩
      intro mid _
      simp
    · rw [handleCallbackQuery, hget]
      simp only [htimeout, hb, Bool.false_eq_true, if_false,
        dispatch_createExpense env
          (Store.put store q.chatId { s with timeout := none }) q fresh tid suffix hData,
        if_true, List.nil_append]
      refine ⟨?_, ?_⟩
      · exact Store.get_put_self (Store.put store q.chatId { s with timeout := none })
          q.chatId _
      · intro mid _
        simp

end SWBot

namespace SWBot

/-- The active session of the C2 scenario: owner 1, one recorded artifact. -/
def c2Session : Session := { userId := some 1, messageIds := some [5] }

/-- The concrete store of the C2 scenario. -/
def c2Store : Store := [((0 : Int), c2Session)]

/-- The owner's "Create expense in group" press. -/
def c2Press : CallbackQuery :=
  { chatId := 0, fromId := 1, messageId := 9, data := "createExpense_7" }

/--
C2 counterexample: a "Create expense in group" press arriving while a
session with recorded artifact 5 is active replaces the record with a
fresh wizard session but never attempts deletion of the old artifact —
the full cleanup protocol does not run for this flow-opening event.
-/
theorem c2_counterexample :
    Effect.deleteMessage 5 ∉ (handleCallbackQuery env0 c2Store c2Press 20 30).2 ∧
    Store.get (handleCallbackQuery env0 c2Store c2Press 20 30).1 0 =
      some { step := some "awaiting_description", groupId := some "7",
             userId := some 1, messageIds := some [20] } := by
  decide

/-- Witness for C2 at concrete inputs. -/
theorem c2_witness :
    keysNodup (runEvents c2Store [(env0, Event.press c2Press 20 30)]) ∧
    (∃ tail, (stepEvent env0 c2Store
        (Event.command Cmd.login { chatId := 0, fromId := 1, messageId := 4, text := "x" }
          20 30)).2 =
      (cleanUpSession c2Store 0).2 ++ tail) ∧
    Effect.deleteMessage 5 ∉ (handleCallbackQuery env0 c2Store c2Press 20 30).2 :=
  ⟨c2_single_session_and_cleanup.1 c2Store [(env0, Event.press c2Press 20 30)]
      (by simp [keysNodup, c2Store]),
   c2_single_session_and_cleanup.2.1 Cmd.login (Or.inl rfl) env0 c2Store
      { chatId := 0, fromId := 1, messageId := 4, text := "x" } 20 30,
   (c2_single_session_and_cleanup.2.2 env0 c2Store c2Press 20 30 ['7'] c2Session
      (by decide) (by decide) (by decide)).2 5 (by decide)⟩

end SWBot
